import Mathlib

/-!
Shallow embedding, in Lean, of the current-affairs application:

* `src/services/gemini.ts` — the request orchestrator `processCurrentAffairs`
  with its transient-failure classifier and bounded exponential-backoff retry
  loop (`MAX_RETRIES = 4`, `BASE_DELAY_MS = 5000`);
* `server.ts` — the `/api/sheets/update` route (session check, configuration
  check, row construction, append call);
* the export handlers of the main React component (`handleDownloadHtml`,
  `handleDownloadExcel`), which are pure formatting functions of the result
  list and the current date.

External effects are made explicit: the generative-content service is an
environment `Nat → GenResult` giving the outcome of each attempt, inserted
delays are collected into a list (milliseconds), and the spreadsheet append is
recorded as the list of payloads handed to the external API.
-/

/-! ### JS string primitives used by the error classifier -/

/-- Prefix test on char lists; building block for substring search. -/
def isPrefixChars : List Char → List Char → Bool
  | [], _ => true
  | _ :: _, [] => false
  | a :: as, b :: bs => a == b && isPrefixChars as bs

/-- Occurrence of `pat` as a contiguous substring (JS `String.prototype.includes`). -/
def hasSubChars (pat : List Char) : List Char → Bool
  | [] => isPrefixChars pat []
  | c :: rest => isPrefixChars pat (c :: rest) || hasSubChars pat rest

/-- JS `s.includes(pat)`. -/
def includesStr (s pat : String) : Bool :=
  hasSubChars pat.toList s.toList

/-- JS `s.toLowerCase()` as used on the ASCII error messages. -/
def lowerStr (s : String) : String :=
  String.mk (s.toList.map Char.toLower)

/-! ### gemini.ts — error classification -/

/-- Observable fields of a thrown service error (`err.status`, `err.code`,
`err.message`), exactly the three properties read by the retry classifier in
`gemini.ts` lines 130-135. -/
structure ErrObj where
  status : Option Int
  code : Option Int
  message : Option String
  deriving DecidableEq

/-- The transient-failure ("503") classifier of `gemini.ts` lines 130-135:
status or code strictly equal to 503, or a message containing `"503"`, or a
lower-cased message containing `"unavailable"` or `"high demand"`. -/
def is503 (e : ErrObj) : Bool :=
  e.status == some 503 || e.code == some 503 ||
    (match e.message with
     | some m => includesStr m "503"
     | none => false) ||
    (match e.message with
     | some m => includesStr (lowerStr m) "unavailable"
     | none => false) ||
    (match e.message with
     | some m => includesStr (lowerStr m) "high demand"
     | none => false)

/-- Exceptions observable inside the retry loop: an error thrown by the
service call, the `Error("Failed to process content into structured format.")`
raised when `JSON.parse` fails, or the JS `undefined` that initialises
`lastError`. -/
inductive JsException where
  | api : ErrObj → JsException
  | formatError : JsException
  | undef : JsException
  deriving DecidableEq

/-- `err?.status` on a caught exception. -/
def excStatus : JsException → Option Int
  | .api e => e.status
  | .formatError => none
  | .undef => none

/-- `err?.code` on a caught exception. -/
def excCode : JsException → Option Int
  | .api e => e.code
  | .formatError => none
  | .undef => none

/-- `err?.message` on a caught exception; the format error carries the
message string built at `gemini.ts` line 126. -/
def excMessage : JsException → Option String
  | .api e => e.message
  | .formatError => some "Failed to process content into structured format."
  | .undef => none

/-- The classifier applied to whatever the `catch` block receives. -/
def is503Exc (exc : JsException) : Bool :=
  is503 ⟨excStatus exc, excCode exc, excMessage exc⟩

/-! ### JSON values and the declared response schema -/

/-- JSON values, the possible results of `JSON.parse`. -/
inductive Json where
  | null : Json
  | bool : Bool → Json
  | num : Int → Json
  | str : String → Json
  | arr : List Json → Json
  | obj : List (String × Json) → Json

/-- Is the value a JSON string? -/
def isStringJson : Json → Bool
  | .str _ => true
  | _ => false

/-- Is the value a JSON array of strings? -/
def isStringArrayJson : Json → Bool
  | .arr xs => xs.all isStringJson
  | _ => false

/-- First field of the given name in a JSON object. -/
def getFieldJson (fields : List (String × Json)) (key : String) : Option Json :=
  (fields.find? (fun p => p.1 == key)).map (fun p => p.2)

/-- The named field exists and satisfies `check`. -/
def fieldIs (fields : List (String × Json)) (key : String) (check : Json → Bool) : Bool :=
  match getFieldJson fields key with
  | some v => check v
  | none => false

/-- Validity of one element per the `responseSchema` declared in
`gemini.ts` lines 91-111: an object with required string fields `title`,
`subTitle`, `date`, `headline` and string-array fields `content`, `staticGk`. -/
def itemValidJson : Json → Bool
  | .obj fields =>
      fieldIs fields "title" isStringJson &&
      fieldIs fields "subTitle" isStringJson &&
      fieldIs fields "date" isStringJson &&
      fieldIs fields "headline" isStringJson &&
      fieldIs fields "content" isStringArrayJson &&
      fieldIs fields "staticGk" isStringArrayJson
  | _ => false

/-- Validity of a whole response body per the declared schema: an array of
valid items. -/
def schemaValid : Json → Bool
  | .arr xs => xs.all itemValidJson
  | _ => false

/-! ### gemini.ts — the retry loop -/

/-- What happens to the body of a successful `generateContent` response:
`response.text` is falsy (so `"[]"` is parsed, giving the empty array), or
`JSON.parse` returns a value, or `JSON.parse` throws. -/
inductive BodyOutcome where
  | noText : BodyOutcome
  | parsed : Json → BodyOutcome
  | unparseable : BodyOutcome

/-- Outcome of one `ai.models.generateContent` call: it throws, or it
returns a response whose body behaves as described. -/
inductive GenResult where
  | throws : ErrObj → GenResult
  | responds : BodyOutcome → GenResult

/-- The body of the `try` at `gemini.ts` lines 120-127 for one attempt:
a service throw propagates; a falsy text yields `[]`; a parseable text
yields its JSON value; an unparseable text is converted to the distinct
structured-format error. -/
def attemptStep : GenResult → Except JsException Json
  | .throws e => .error (.api e)
  | .responds .noText => .ok (Json.arr [])
  | .responds (.parsed v) => .ok v
  | .responds .unparseable => .error .formatError

/-- `MAX_RETRIES` from `gemini.ts` line 115. -/
def MAX_RETRIES : Nat := 4

/-- `BASE_DELAY_MS` from `gemini.ts` line 116. -/
def BASE_DELAY_MS : Nat := 5000

/-- Result of one orchestrator run: the returned value or thrown exception,
the number of attempts issued, and the inserted delays in order (ms). -/
structure ProcResult where
  result : Except JsException Json
  attempts : Nat
  delays : List Nat

/-- The `for` loop of `gemini.ts` lines 119-145, with `fuel` the number of
remaining iterations (initially `MAX_RETRIES`, so `attempt = MAX_RETRIES -
fuel`).  On a caught exception the loop retries — inserting a delay of
`BASE_DELAY_MS * 2 ^ attempt` — exactly when the classifier fires and
`attempt < MAX_RETRIES - 1`; otherwise the exception propagates.  Loop
exhaustion rethrows the last stored error (`gemini.ts` line 147). -/
def runLoopAux (env : Nat → GenResult) : Nat → Nat → JsException → ProcResult
  | 0, _, lastError => ⟨Except.error lastError, 0, []⟩
  | fuel + 1, attempt, _ =>
    match attemptStep (env attempt) with
    | .ok v => ⟨Except.ok v, 1, []⟩
    | .error exc =>
      if is503Exc exc = true ∧ attempt < MAX_RETRIES - 1 then
        ⟨(runLoopAux env fuel (attempt + 1) exc).result,
         (runLoopAux env fuel (attempt + 1) exc).attempts + 1,
         BASE_DELAY_MS * 2 ^ attempt :: (runLoopAux env fuel (attempt + 1) exc).delays⟩
      else ⟨Except.error exc, 1, []⟩

/-! ### gemini.ts — request construction and entry point -/

/-- JS `data.split(',')` — split at every comma; `"".split(',')` is `[""]`. -/
def splitComma : List Char → List (List Char)
  | [] => [[]]
  | c :: cs =>
    match splitComma cs with
    | [] => [[]]
    | seg :: rest => if c = ',' then [] :: seg :: rest else (c :: seg) :: rest

/-- The inline-data payload selection of `gemini.ts` line 73:
`file.data.split(',')[1] || file.data` (JS `||` falls back on `undefined`
and on the empty string). -/
def extractData (data : List Char) : List Char :=
  match (splitComma data).get? 1 with
  | some seg => if seg = [] then data else seg
  | none => data

/-- One uploaded file as passed to `processCurrentAffairs`. -/
structure FilePayload where
  data : List Char
  mimeType : String

/-- One `inlineData` part of the request. -/
structure InlinePart where
  data : List Char
  mimeType : String
  deriving DecidableEq

/-- The `parts` array built at `gemini.ts` lines 71-76. -/
def buildParts (files : List FilePayload) : List InlinePart :=
  files.map (fun file => ⟨extractData file.data, file.mimeType⟩)

/-- Message of the configuration error thrown at `gemini.ts` line 66. -/
def configErrorMessage : String :=
  "GEMINI_API_KEY is not configured. Please add it to your environment variables."

/-- `processCurrentAffairs` (`gemini.ts` lines 63-148): check the API key
(JS falsy: absent or empty), build the request parts, then run the retry
loop.  The model returns the parts that would be sent together with the run
result; note the code performs no schema validation on a successfully parsed
body — it returns whatever `JSON.parse` produced. -/
def processCurrentAffairs (apiKey : Option String) (env : Nat → GenResult)
    (files : List FilePayload) : List InlinePart × ProcResult :=
  match apiKey with
  | none => ([], ⟨Except.error (JsException.api ⟨none, none, some configErrorMessage⟩), 0, []⟩)
  | some k =>
    if k = "" then
      ([], ⟨Except.error (JsException.api ⟨none, none, some configErrorMessage⟩), 0, []⟩)
    else
      (buildParts files, runLoopAux env MAX_RETRIES 0 JsException.undef)

/-- Reading of claim C10 following the spec words: the whole substring after
the FIRST comma.  Kept only to compare against `extractData`, which is the
embedding of the source expression. -/
def afterFirstComma (s : List Char) : List Char :=
  (s.dropWhile (fun c => ¬ c = ',')).tail

/-! ### server.ts — the /api/sheets/update route -/

/-- The `NewsItem` interface of `gemini.ts` lines 54-61. -/
structure NewsItem where
  title : String
  subTitle : String
  date : String
  headline : String
  content : List String
  staticGk : List String

/-- One appended row (`server.ts` lines 112-121) for a well-typed `NewsItem`:
six cells; `content` is an array here so the `Array.isArray` test succeeds and
it is joined by newline; `staticGk` is joined by newline when non-empty and
otherwise replaced by the literal `"Not applicable"`. -/
def toRow (item : NewsItem) : List String :=
  [item.title, item.subTitle, item.date, item.headline,
   String.intercalate "\n" item.content,
   if item.staticGk.length > 0 then String.intercalate "\n" item.staticGk
   else "Not applicable"]

/-- Inputs of one request to `/api/sheets/update`: whether the session holds
OAuth tokens, the configured spreadsheet id (env, absent or possibly empty),
and the `data` field of the JSON body. -/
structure SheetsUpdateRequest where
  hasTokens : Bool
  spreadsheetId : Option String
  data : Option (List NewsItem)

/-- The HTTP-level outcome of the route. -/
inductive SheetsUpdateResponse where
  | unauthorized : SheetsUpdateResponse
  | misconfigured : SheetsUpdateResponse
  | missingData : SheetsUpdateResponse
  | ok : SheetsUpdateResponse
  deriving DecidableEq

/-- Route outcome together with every payload handed to the external
`spreadsheets.values.append` call (empty list = no network call attempted). -/
structure SheetsUpdateOutcome where
  response : SheetsUpdateResponse
  appendCalls : List (List (List String))

/-- The handler of `server.ts` lines 93-137 in request order: missing session
tokens give 401 before anything else; a missing/empty `SPREADSHEET_ID` gives
500; a missing `data` gives 400; otherwise one append call is issued carrying
one row per item. -/
def sheetsUpdate (req : SheetsUpdateRequest) : SheetsUpdateOutcome :=
  if req.hasTokens = false then ⟨.unauthorized, []⟩
  else
    match req.spreadsheetId with
    | none => ⟨.misconfigured, []⟩
    | some sid =>
      if sid = "" then ⟨.misconfigured, []⟩
      else
        match req.data with
        | none => ⟨.missingData, []⟩
        | some items => ⟨.ok, [items.map toRow]⟩

/-! ### part_002 — export handlers (handleDownloadHtml / handleDownloadExcel)

The only impure inputs of the two download handlers are the result list and
the current date, read twice as `new Date().toLocaleDateString(..)`
(`dateStr`) and `new Date().toISOString().split('T')[0]` (the file-name
stamp); both are passed here as explicit arguments. -/

/-- A produced download: file name and file content. -/
structure DownloadedFile where
  fileName : String
  content : String

/-- The per-item fragment of the `contentHtml` template
(`part_002` lines 182-198). -/
def itemHtml (item : NewsItem) : String :=
  "\n        <div class=\"news-item\">\n            <h2>" ++ item.title ++
  " – " ++ item.subTitle ++
  "</h2>\n            <div class=\"meta\" style=\"text-align: left; margin-bottom: 16px;\">Date: " ++ item.date ++
  "</div>\n            <p><strong>" ++ item.headline ++
  "</strong></p>\n            <ul>\n                " ++ String.join (item.content.map (fun point => "<li>" ++ point ++ "</li>")) ++
  "\n            </ul>\n            <div class=\"static-gk\">\n                <strong>Static GK:</strong>\n                " ++
  (if item.staticGk.length > 0 then
    "<ul>" ++ String.join (item.staticGk.map (fun gk => "<li>" ++ gk ++ "</li>")) ++ "</ul>"
  else "Not applicable") ++
  "\n            </div>\n        </div>\n        <hr style=\"border: 0; border-top: 1px dashed #e7e5e4; margin: 40px 0;\">\n    "

/-- `contentHtml` (`part_002` line 182): the item fragments joined by `""`. -/
def contentHtml (result : List NewsItem) : String :=
  String.join (result.map itemHtml)

/-- Document text before the first date stamp (`part_002` template, line 200
up to the first `dateStr` interpolation). -/
def htmlPartA : String :=
  "\n<!DOCTYPE html>\n<html lang=\"en\">\n<head>\n    <meta charset=\"UTF-8\">\n    <meta name=\"viewport\" content=\"width=device-width, initial-scale=1.0\">\n    <title>Daily Digest - "

/-- Document text between the two date stamps (title end through the
`Edition: ` label). -/
def htmlPartB : String :=
  "</title>\n    <link href=\"https://fonts.googleapis.com/css2?family=Cormorant+Garamond:ital,wght@0,300;0,400;0,500;0,600;0,700;1,300;1,400;1,500;1,600;1,700&family=Inter:wght@100..900&family=JetBrains+Mono:ital,wght@0,100..800;1,100..800&display=swap\" rel=\"stylesheet\">\n    <style>\n        body \x7b\n            font-family: \"Inter\", sans-serif;\n            background-color: #f5f5f0;\n            color: #1c1917;\n            margin: 0;\n            padding: 40px 20px;\n            line-height: 1.6;\n        \x7d\n        .container \x7b\n            max-width: 800px;\n            margin: 0 auto;\n            background: white;\n            padding: 60px;\n            box-shadow: 0 25px 50px -12px rgba(0, 0, 0, 0.1);\n            min-height: 297mm;\n        \x7d\n        header \x7b\n            border-bottom: 4px solid #1c1917;\n            padding-bottom: 32px;\n            margin-bottom: 48px;\n            display: flex;\n            justify-content: space-between;\n            align-items: flex-end;\n        \x7d\n        h1 \x7b\n            font-family: \"Cormorant Garamond\", serif;\n            font-size: 48px;\n            font-weight: 900;\n            text-transform: uppercase;\n            letter-spacing: -0.05em;\n            margin: 0;\n            line-height: 0.9;\n        \x7d\n        .subtitle \x7b\n            font-family: \"Cormorant Garamond\", serif;\n            font-style: italic;\n            font-size: 18px;\n            color: #57534e;\n            margin-top: 8px;\n        \x7d\n        .meta \x7b\n            text-align: right;\n            font-family: \"JetBrains Mono\", monospace;\n            font-size: 12px;\n            color: #a8a29e;\n            text-transform: uppercase;\n            letter-spacing: 0.1em;\n        \x7d\n        .content \x7b\n            font-family: \"Inter\", sans-serif;\n        \x7d\n        .content h2 \x7b\n            font-family: \"Cormorant Garamond\", serif;\n            font-weight: bold;\n            color: #1c1917;\n            margin-bottom: 16px;\n            margin-top: 32px;\n            border-bottom: 1px solid #f5f5f4;\n            padding-bottom: 8px;\n        \x7d\n        .content p \x7b\n            margin-bottom: 16px;\n            color: #292524;\n        \x7d\n        .content ul \x7b\n            list-style: none;\n            padding-left: 0;\n            margin-bottom: 24px;\n        \x7d\n        .content li \x7b\n            position: relative;\n            padding-left: 24px;\n            margin-bottom: 8px;\n            color: #44403c;\n        \x7d\n        .content li::before \x7b\n            content: \"•\";\n            position: absolute;\n            left: 0;\n            color: #a8a29e;\n            font-weight: bold;\n        \x7d\n        .static-gk \x7b\n            background: #f9f8f6;\n            padding: 16px;\n            border-radius: 8px;\n            margin-top: 16px;\n        \x7d\n        footer \x7b\n            margin-top: 80px;\n            padding-top: 32px;\n            border-top: 1px solid #e7e5e4;\n            text-align: center;\n            font-family: \"Cormorant Garamond\", serif;\n            font-style: italic;\n            color: #a8a29e;\n        \x7d\n        @media print \x7b\n            body \x7b background: white; padding: 0; \x7d\n            .container \x7b box-shadow: none; padding: 0; width: 100%; \x7d\n        \x7d\n    </style>\n</head>\n<body>\n    <div class=\"container\">\n        <header>\n            <div>\n                <h1>The Daily Digest</h1>\n                <div class=\"subtitle\">Curated Current Affairs for Competitive Excellence</div>\n            </div>\n            <div class=\"meta\">\n                Edition: "

/-- Document text from the second date stamp to the `contentHtml`
interpolation. -/
def htmlPartC : String :=
  "\n            </div>\n        </header>\n        <div class=\"content\">\n            "

/-- Document text after the `contentHtml` interpolation. -/
def htmlPartD : String :=
  "\n        </div>\n        <footer>\n            End of Daily Digest. Success follows consistency.\n        </footer>\n    </div>\n</body>\n</html>\n    "

/-- Tail of the document after the second date stamp. -/
def htmlTail (result : List NewsItem) : String :=
  htmlPartC ++ contentHtml result ++ htmlPartD

/-- `handleDownloadHtml` (`part_002` lines 176-343): file name
`Daily_Digest_<iso>.html` and the interpolated document template. -/
def handleDownloadHtml (dateStr isoDate : String) (result : List NewsItem) :
    DownloadedFile :=
  ⟨"Daily_Digest_" ++ isoDate ++ ".html",
   htmlPartA ++ dateStr ++ htmlPartB ++ dateStr ++ htmlTail result⟩

/-- One worksheet row of `handleDownloadExcel` (`part_002` lines 348-355):
the named cells in declaration order. -/
def excelRow (item : NewsItem) : List (String × String) :=
  [("Section", item.title),
   ("Sub-Section", item.subTitle),
   ("Date", item.date),
   ("Headline", item.headline),
   ("Content", String.intercalate "\n" item.content),
   ("Static GK",
    if item.staticGk.length > 0 then String.intercalate "\n" item.staticGk
    else "Not applicable")]

/-- `handleDownloadExcel` (`part_002` lines 345-374): file name
`Daily_Digest_<iso>.xlsx` and the sheet rows. -/
def handleDownloadExcel (isoDate : String) (result : List NewsItem) :
    String × List (List (String × String)) :=
  ("Daily_Digest_" ++ isoDate ++ ".xlsx", result.map excelRow)

/-! ### Lemmas about the retry loop -/

/-- Unfolding of one loop iteration. -/
theorem runLoopAux_succ (env : Nat → GenResult) (fuel attempt : Nat) (last : JsException) :
    runLoopAux env (fuel + 1) attempt last =
      match attemptStep (env attempt) with
      | .ok v => ⟨Except.ok v, 1, []⟩
      | .error exc =>
        if is503Exc exc = true ∧ attempt < MAX_RETRIES - 1 then
          ⟨(runLoopAux env fuel (attempt + 1) exc).result,
           (runLoopAux env fuel (attempt + 1) exc).attempts + 1,
           BASE_DELAY_MS * 2 ^ attempt :: (runLoopAux env fuel (attempt + 1) exc).delays⟩
        else ⟨Except.error exc, 1, []⟩ := rfl

/-- An iteration whose attempt succeeds returns at once. -/
theorem runLoopAux_ok (env : Nat → GenResult) (fuel attempt : Nat) (last : JsException)
    (v : Json) (hstep : attemptStep (env attempt) = Except.ok v) :
    runLoopAux env (fuel + 1) attempt last = ⟨Except.ok v, 1, []⟩ := by
  rw [runLoopAux_succ, hstep]

/-- An iteration that catches a transient error below the retry bound delays
and recurses. -/
theorem runLoopAux_retry (env : Nat → GenResult) (fuel attempt : Nat) (last : JsException)
    (exc : JsException) (hstep : attemptStep (env attempt) = Except.error exc)
    (h503 : is503Exc exc = true) (hlt : attempt < MAX_RETRIES - 1) :
    runLoopAux env (fuel + 1) attempt last =
      ⟨(runLoopAux env fuel (attempt + 1) exc).result,
       (runLoopAux env fuel (attempt + 1) exc).attempts + 1,
       BASE_DELAY_MS * 2 ^ attempt :: (runLoopAux env fuel (attempt + 1) exc).delays⟩ := by
  rw [runLoopAux_succ, hstep]
  exact if_pos ⟨h503, hlt⟩

/-- An iteration that catches a non-retryable error (or has exhausted the
retry budget) rethrows it. -/
theorem runLoopAux_throw (env : Nat → GenResult) (fuel attempt : Nat) (last : JsException)
    (exc : JsException) (hstep : attemptStep (env attempt) = Except.error exc)
    (hng : ¬(is503Exc exc = true ∧ attempt < MAX_RETRIES - 1)) :
    runLoopAux env (fuel + 1) attempt last = ⟨Except.error exc, 1, []⟩ := by
  rw [runLoopAux_succ, hstep]
  exact if_neg hng

/-- The classifier on a thrown service error sees exactly its fields. -/
theorem is503Exc_api (e : ErrObj) : is503Exc (JsException.api e) = is503 e := by
  cases e
  rfl

/-- When the configured key is non-empty, `processCurrentAffairs` runs the
retry loop from attempt 0. -/
theorem processCurrentAffairs_run (k : String) (hk : ¬ k = "") (env : Nat → GenResult)
    (files : List FilePayload) :
    (processCurrentAffairs (some k) env files).2 =
      runLoopAux env MAX_RETRIES 0 JsException.undef := by
  simp [processCurrentAffairs, hk]

/-! ### Claims about the retry loop -/

/-- Claim C1: for every sequence of at most 3 consecutive transient-failure
responses followed by a success, `processCurrentAffairs` returns the success
result and issues exactly (failures + 1) attempts, with the delays inserted
before the 1st, 2nd and 3rd retry being 5 s, 10 s and 20 s (here in ms), in
that order. -/
theorem claim1_retry_then_success (k : String) (env : Nat → GenResult)
    (files : List FilePayload) (n : Nat) (v : Json) (hk : ¬ k = "") (hn : n ≤ 3)
    (htrans : ∀ i, i < n → ∃ e, env i = GenResult.throws e ∧ is503 e = true)
    (hsucc : env n = GenResult.responds (BodyOutcome.parsed v)) :
    (processCurrentAffairs (some k) env files).2 =
      ⟨Except.ok v, n + 1, List.take n [5000, 10000, 20000]⟩ := by
  rw [processCurrentAffairs_run k hk env files]
  interval_cases n
  · have h0 : attemptStep (env 0) = Except.ok v := by rw [hsucc]; rfl
    show runLoopAux env (3 + 1) 0 JsException.undef = _
    rw [runLoopAux_ok env 3 0 JsException.undef v h0]
    rfl
  · obtain ⟨e0, he0, h5e0⟩ := htrans 0 (by omega)
    have h0 : attemptStep (env 0) = Except.error (JsException.api e0) := by rw [he0]; rfl
    have g0 : is503Exc (JsException.api e0) = true := by rw [is503Exc_api]; exact h5e0
    have h1 : attemptStep (env 1) = Except.ok v := by rw [hsucc]; rfl
    have st1 : runLoopAux env 3 1 (JsException.api e0) = ⟨Except.ok v, 1, []⟩ :=
      runLoopAux_ok env 2 1 (JsException.api e0) v h1
    show runLoopAux env (3 + 1) 0 JsException.undef = _
    rw [runLoopAux_retry env 3 0 JsException.undef (JsException.api e0) h0 g0 (by norm_num [MAX_RETRIES]), st1]
    rfl
  · obtain ⟨e0, he0, h5e0⟩ := htrans 0 (by omega)
    obtain ⟨e1, he1, h5e1⟩ := htrans 1 (by omega)
    have h0 : attemptStep (env 0) = Except.error (JsException.api e0) := by rw [he0]; rfl
    have g0 : is503Exc (JsException.api e0) = true := by rw [is503Exc_api]; exact h5e0
    have h1 : attemptStep (env 1) = Except.error (JsException.api e1) := by rw [he1]; rfl
    have g1 : is503Exc (JsException.api e1) = true := by rw [is503Exc_api]; exact h5e1
    have h2 : attemptStep (env 2) = Except.ok v := by rw [hsucc]; rfl
    have st2 : runLoopAux env 2 2 (JsException.api e1) = ⟨Except.ok v, 1, []⟩ :=
      runLoopAux_ok env 1 2 (JsException.api e1) v h2
    have st1 : runLoopAux env 3 1 (JsException.api e0) =
        ⟨(runLoopAux env 2 2 (JsException.api e1)).result,
         (runLoopAux env 2 2 (JsException.api e1)).attempts + 1,
         BASE_DELAY_MS * 2 ^ 1 :: (runLoopAux env 2 2 (JsException.api e1)).delays⟩ :=
      runLoopAux_retry env 2 1 (JsException.api e0) (JsException.api e1) h1 g1 (by norm_num [MAX_RETRIES])
    show runLoopAux env (3 + 1) 0 JsException.undef = _
    rw [runLoopAux_retry env 3 0 JsException.undef (JsException.api e0) h0 g0 (by norm_num [MAX_RETRIES]), st1, st2]
    rfl
  · obtain ⟨e0, he0, h5e0⟩ := htrans 0 (by omega)
    obtain ⟨e1, he1, h5e1⟩ := htrans 1 (by omega)
    obtain ⟨e2, he2, h5e2⟩ := htrans 2 (by omega)
    have h0 : attemptStep (env 0) = Except.error (JsException.api e0) := by rw [he0]; rfl
    have g0 : is503Exc (JsException.api e0) = true := by rw [is503Exc_api]; exact h5e0
    have h1 : attemptStep (env 1) = Except.error (JsException.api e1) := by rw [he1]; rfl
    have g1 : is503Exc (JsException.api e1) = true := by rw [is503Exc_api]; exact h5e1
    have h2 : attemptStep (env 2) = Except.error (JsException.api e2) := by rw [he2]; rfl
    have g2 : is503Exc (JsException.api e2) = true := by rw [is503Exc_api]; exact h5e2
    have h3 : attemptStep (env 3) = Except.ok v := by rw [hsucc]; rfl
    have st3 : runLoopAux env 1 3 (JsException.api e2) = ⟨Except.ok v, 1, []⟩ :=
      runLoopAux_ok env 0 3 (JsException.api e2) v h3
    have st2 : runLoopAux env 2 2 (JsException.api e1) =
        ⟨(runLoopAux env 1 3 (JsException.api e2)).result,
         (runLoopAux env 1 3 (JsException.api e2)).attempts + 1,
         BASE_DELAY_MS * 2 ^ 2 :: (runLoopAux env 1 3 (JsException.api e2)).delays⟩ :=
      runLoopAux_retry env 1 2 (JsException.api e1) (JsException.api e2) h2 g2 (by norm_num [MAX_RETRIES])
    have st1 : runLoopAux env 3 1 (JsException.api e0) =
        ⟨(runLoopAux env 2 2 (JsException.api e1)).result,
         (runLoopAux env 2 2 (JsException.api e1)).attempts + 1,
         BASE_DELAY_MS * 2 ^ 1 :: (runLoopAux env 2 2 (JsException.api e1)).delays⟩ :=
      runLoopAux_retry env 2 1 (JsException.api e0) (JsException.api e1) h1 g1 (by norm_num [MAX_RETRIES])
    show runLoopAux env (3 + 1) 0 JsException.undef = _
    rw [runLoopAux_retry env 3 0 JsException.undef (JsException.api e0) h0 g0 (by norm_num [MAX_RETRIES]), st1, st2, st3]
    rfl

/-- Witness for C1 at a concrete input: two 503 failures then a success. -/
theorem claim1_retry_then_success_witness :
    (processCurrentAffairs (some "key")
      (fun i => if i < 2 then GenResult.throws ⟨some 503, none, none⟩
                else GenResult.responds (BodyOutcome.parsed (Json.arr []))) []).2 =
      ⟨Except.ok (Json.arr []), 3, [5000, 10000]⟩ :=
  claim1_retry_then_success "key"
    (fun i => if i < 2 then GenResult.throws ⟨some 503, none, none⟩
              else GenResult.responds (BodyOutcome.parsed (Json.arr []))) [] 2 (Json.arr [])
    (by decide) (by decide)
    (fun i hi => ⟨⟨some 503, none, none⟩, by interval_cases i <;> rfl, by decide⟩)
    rfl

/-- Claim C2: for every sequence of 4 consecutive transient-failure
responses, `processCurrentAffairs` issues exactly 4 attempts, inserts
delays only before the 2nd, 3rd and 4th attempt (none after the 4th),
and then rethrows the final failure to the caller. -/
theorem claim2_retries_exhausted (k : String) (env : Nat → GenResult)
    (files : List FilePayload) (hk : ¬ k = "")
    (htrans : ∀ i, i < 4 → ∃ e, env i = GenResult.throws e ∧ is503 e = true) :
    (processCurrentAffairs (some k) env files).2.attempts = 4 ∧
    (processCurrentAffairs (some k) env files).2.delays = [5000, 10000, 20000] ∧
    ∃ e, env 3 = GenResult.throws e ∧
      (processCurrentAffairs (some k) env files).2.result =
        Except.error (JsException.api e) := by
  obtain ⟨e0, he0, h5e0⟩ := htrans 0 (by omega)
  obtain ⟨e1, he1, h5e1⟩ := htrans 1 (by omega)
  obtain ⟨e2, he2, h5e2⟩ := htrans 2 (by omega)
  obtain ⟨e3, he3, h5e3⟩ := htrans 3 (by omega)
  have h0 : attemptStep (env 0) = Except.error (JsException.api e0) := by rw [he0]; rfl
  have g0 : is503Exc (JsException.api e0) = true := by rw [is503Exc_api]; exact h5e0
  have h1 : attemptStep (env 1) = Except.error (JsException.api e1) := by rw [he1]; rfl
  have g1 : is503Exc (JsException.api e1) = true := by rw [is503Exc_api]; exact h5e1
  have h2 : attemptStep (env 2) = Except.error (JsException.api e2) := by rw [he2]; rfl
  have g2 : is503Exc (JsException.api e2) = true := by rw [is503Exc_api]; exact h5e2
  have h3 : attemptStep (env 3) = Except.error (JsException.api e3) := by rw [he3]; rfl
  have st3 : runLoopAux env 1 3 (JsException.api e2) = ⟨Except.error (JsException.api e3), 1, []⟩ :=
    runLoopAux_throw env 0 3 (JsException.api e2) (JsException.api e3) h3
      (by simp [MAX_RETRIES])
  have st2 : runLoopAux env 2 2 (JsException.api e1) =
      ⟨(runLoopAux env 1 3 (JsException.api e2)).result,
       (runLoopAux env 1 3 (JsException.api e2)).attempts + 1,
       BASE_DELAY_MS * 2 ^ 2 :: (runLoopAux env 1 3 (JsException.api e2)).delays⟩ :=
    runLoopAux_retry env 1 2 (JsException.api e1) (JsException.api e2) h2 g2
      (by norm_num [MAX_RETRIES])
  have st1 : runLoopAux env 3 1 (JsException.api e0) =
      ⟨(runLoopAux env 2 2 (JsException.api e1)).result,
       (runLoopAux env 2 2 (JsException.api e1)).attempts + 1,
       BASE_DELAY_MS * 2 ^ 1 :: (runLoopAux env 2 2 (JsException.api e1)).delays⟩ :=
    runLoopAux_retry env 2 1 (JsException.api e0) (JsException.api e1) h1 g1
      (by norm_num [MAX_RETRIES])
  have hrun : (processCurrentAffairs (some k) env files).2 =
      ⟨Except.error (JsException.api e3), 4, [5000, 10000, 20000]⟩ := by
    rw [processCurrentAffairs_run k hk env files]
    show runLoopAux env (3 + 1) 0 JsException.undef = _
    rw [runLoopAux_retry env 3 0 JsException.undef (JsException.api e0) h0 g0
      (by norm_num [MAX_RETRIES]), st1, st2, st3]
    rfl
  exact ⟨by rw [hrun], by rw [hrun], e3, he3, by rw [hrun]⟩

/-- Witness for C2 at a concrete input: four 503 failures. -/
theorem claim2_retries_exhausted_witness :
    (processCurrentAffairs (some "key")
      (fun _ => GenResult.throws ⟨some 503, none, none⟩) []).2.attempts = 4 ∧
    (processCurrentAffairs (some "key")
      (fun _ => GenResult.throws ⟨some 503, none, none⟩) []).2.delays =
      [5000, 10000, 20000] := by
  have h := claim2_retries_exhausted "key"
    (fun _ => GenResult.throws ⟨some 503, none, none⟩) [] (by decide)
    (fun i _ => ⟨⟨some 503, none, none⟩, rfl, by decide⟩)
  exact ⟨h.1, h.2.1⟩

/-- Claim C4: a non-transient error on the first attempt (one that does not
match the 503/unavailable/high-demand trigger set of `is503`) propagates to
the caller after exactly one attempt, with no delay inserted. -/
theorem claim4_nontransient_immediate (k : String) (env : Nat → GenResult)
    (files : List FilePayload) (e : ErrObj) (hk : ¬ k = "")
    (h0 : env 0 = GenResult.throws e) (hnot : is503 e = false) :
    (processCurrentAffairs (some k) env files).2 =
      ⟨Except.error (JsException.api e), 1, []⟩ := by
  have h0' : attemptStep (env 0) = Except.error (JsException.api e) := by rw [h0]; rfl
  rw [processCurrentAffairs_run k hk env files]
  show runLoopAux env (3 + 1) 0 JsException.undef = _
  rw [runLoopAux_throw env 3 0 JsException.undef (JsException.api e) h0'
    (by simp [is503Exc_api, hnot])]

/-- Witness for C4 at a concrete input: a 400 error with message
`"Bad Request"`. -/
theorem claim4_nontransient_immediate_witness :
    (processCurrentAffairs (some "key")
      (fun _ => GenResult.throws ⟨some 400, none, some "Bad Request"⟩) []).2 =
      ⟨Except.error (JsException.api ⟨some 400, none, some "Bad Request"⟩), 1, []⟩ :=
  claim4_nontransient_immediate "key"
    (fun _ => GenResult.throws ⟨some 400, none, some "Bad Request"⟩) []
    ⟨some 400, none, some "Bad Request"⟩ (by decide) rfl (by decide)

/-- Claim C5 as amended: a response body that `JSON.parse` cannot parse is
reported as the distinct structured-format error (the `Error` built at
`gemini.ts` line 126), not as the underlying parse exception, after exactly
one attempt; the counterexample shows that a body that parses as JSON but
violates the declared schema is returned as a success instead. -/
theorem claim5_format_error (k : String) (env : Nat → GenResult)
    (files : List FilePayload) (hk : ¬ k = "")
    (h0 : env 0 = GenResult.responds BodyOutcome.unparseable) :
    (processCurrentAffairs (some k) env files).2 =
      ⟨Except.error JsException.formatError, 1, []⟩ := by
  have h0' : attemptStep (env 0) = Except.error JsException.formatError := by rw [h0]; rfl
  rw [processCurrentAffairs_run k hk env files]
  show runLoopAux env (3 + 1) 0 JsException.undef = _
  rw [runLoopAux_throw env 3 0 JsException.undef JsException.formatError h0' (by decide)]

/-- Witness for the amended C5 at a concrete input. -/
theorem claim5_format_error_witness :
    (processCurrentAffairs (some "key")
      (fun _ => GenResult.responds BodyOutcome.unparseable) []).2 =
      ⟨Except.error JsException.formatError, 1, []⟩ :=
  claim5_format_error "key" (fun _ => GenResult.responds BodyOutcome.unparseable) []
    (by decide) rfl

/-- Counterexample to C5 as stated: the JSON value `0` is not valid per the
declared schema, yet `processCurrentAffairs` returns it as a success — no
`FormatError` is raised for schema-invalid but parseable bodies. -/
theorem claim5_counterexample :
    schemaValid (Json.num 0) = false ∧
    (processCurrentAffairs (some "key")
      (fun _ => GenResult.responds (BodyOutcome.parsed (Json.num 0))) []).2.result =
      Except.ok (Json.num 0) ∧
    (processCurrentAffairs (some "key")
      (fun _ => GenResult.responds (BodyOutcome.parsed (Json.num 0))) []).2.result ≠
      Except.error JsException.formatError :=
  ⟨rfl, rfl, fun h => Except.noConfusion h⟩

/-- Claim C6: a service response that parses to the empty array is a normal
success with an empty result list, not a thrown error. -/
theorem claim6_empty_array_success (k : String) (env : Nat → GenResult)
    (files : List FilePayload) (hk : ¬ k = "")
    (h0 : env 0 = GenResult.responds (BodyOutcome.parsed (Json.arr []))) :
    (processCurrentAffairs (some k) env files).2 =
      ⟨Except.ok (Json.arr []), 1, []⟩ := by
  have h0' : attemptStep (env 0) = Except.ok (Json.arr []) := by rw [h0]; rfl
  rw [processCurrentAffairs_run k hk env files]
  show runLoopAux env (3 + 1) 0 JsException.undef = _
  rw [runLoopAux_ok env 3 0 JsException.undef (Json.arr []) h0']

/-- Witness for C6 at a concrete input. -/
theorem claim6_empty_array_success_witness :
    (processCurrentAffairs (some "key")
      (fun _ => GenResult.responds (BodyOutcome.parsed (Json.arr []))) []).2 =
      ⟨Except.ok (Json.arr []), 1, []⟩ :=
  claim6_empty_array_success "key"
    (fun _ => GenResult.responds (BodyOutcome.parsed (Json.arr []))) [] (by decide) rfl

/-- Worst-case remaining backoff (ms) when the loop is at a given attempt:
5000·2^a summed over the retries still allowed. -/
def delayBudget : Nat → Nat
  | 0 => 35000
  | 1 => 30000
  | 2 => 20000
  | _ => 0

/-- The delays inserted from any attempt onward sum to at most the budget of
that attempt. -/
theorem runLoopAux_delays_sum_le (env : Nat → GenResult) :
    ∀ fuel attempt last,
      ((runLoopAux env fuel attempt last).delays).sum ≤ delayBudget attempt := by
  intro fuel
  induction fuel with
  | zero => intro attempt last; simp [runLoopAux]
  | succ f ih =>
    intro attempt last
    rw [runLoopAux_succ]
    cases hstep : attemptStep (env attempt) with
    | ok v => simp
    | error exc =>
      dsimp only
      by_cases hg : is503Exc exc = true ∧ attempt < MAX_RETRIES - 1
      · rw [if_pos hg]
        have hlt : attempt < 3 := by
          have := hg.2
          simp [MAX_RETRIES] at this
          omega
        have hrec := ih (attempt + 1) exc
        interval_cases attempt <;>
          simp only [delayBudget, List.sum_cons, BASE_DELAY_MS] at hrec ⊢ <;>
          omega
      · rw [if_neg hg]
        simp

/-- Claim C3 as amended: the cumulative backoff inserted between attempts is
at most 35 seconds (5 s + 10 s + 20 s); the counterexample shows the claimed
15-second bound is exceeded. -/
theorem claim3_cumulative_delay_bound (apiKey : Option String) (env : Nat → GenResult)
    (files : List FilePayload) :
    ((processCurrentAffairs apiKey env files).2.delays).sum ≤ 35000 := by
  cases apiKey with
  | none => simp [processCurrentAffairs]
  | some k =>
    by_cases hk : k = ""
    · simp [processCurrentAffairs, hk]
    · rw [processCurrentAffairs_run k hk env files]
      have h := runLoopAux_delays_sum_le env MAX_RETRIES 0 JsException.undef
      simpa [delayBudget] using h

/-- Counterexample to C3 as stated: with four transient failures the
inserted delays are 5 s, 10 s and 20 s, totalling 35 s > 15 s. -/
theorem claim3_counterexample :
    ((processCurrentAffairs (some "key")
        (fun _ => GenResult.throws ⟨some 503, none, none⟩) []).2.delays).sum = 35000 ∧
    ¬ ((processCurrentAffairs (some "key")
        (fun _ => GenResult.throws ⟨some 503, none, none⟩) []).2.delays).sum ≤ 15000 :=
  ⟨rfl, by decide⟩

/-- Claim C7: with an established session, a configured spreadsheet id and a
present `data` list, the endpoint issues exactly one append whose payload has
one row per NewsItem, each row being the six cells [section, subsection,
date, headline, body points joined by newline, background facts joined by
newline or the literal `"Not applicable"` when empty]. -/
theorem claim7_append_rows (req : SheetsUpdateRequest) (items : List NewsItem)
    (sid : String) (h1 : req.hasTokens = true) (h2 : req.spreadsheetId = some sid)
    (h3 : ¬ sid = "") (h4 : req.data = some items) :
    (sheetsUpdate req).response = SheetsUpdateResponse.ok ∧
    (sheetsUpdate req).appendCalls = [items.map toRow] ∧
    (items.map toRow).length = items.length ∧
    (∀ item, item ∈ items → toRow item =
      [item.title, item.subTitle, item.date, item.headline,
       String.intercalate "\n" item.content,
       if item.staticGk = [] then "Not applicable"
       else String.intercalate "\n" item.staticGk]) := by
  have hout : sheetsUpdate req = ⟨SheetsUpdateResponse.ok, [items.map toRow]⟩ := by
    simp [sheetsUpdate, h1, h2, h3, h4]
  refine ⟨by rw [hout], by rw [hout], by simp, ?_⟩
  intro item _
  cases hsg : item.staticGk with
  | nil => simp [toRow, hsg]
  | cons x tl => simp [toRow, hsg]

/-- Witness for C7 at a concrete input: two items, one with and one without
background facts. -/
theorem claim7_append_rows_witness :
    (sheetsUpdate ⟨true, some "sid", some
      [⟨"SPORTS", "Winners", "1 May 2026", "India wins", ["p1", "p2"], ["HQ: X"]⟩,
       ⟨"Current Affairs", "CA", "2 May 2026", "Other item", ["q"], []⟩]⟩).appendCalls =
      [[["SPORTS", "Winners", "1 May 2026", "India wins", "p1\np2", "HQ: X"],
        ["Current Affairs", "CA", "2 May 2026", "Other item", "q", "Not applicable"]]] := by
  have h := claim7_append_rows ⟨true, some "sid", some
      [⟨"SPORTS", "Winners", "1 May 2026", "India wins", ["p1", "p2"], ["HQ: X"]⟩,
       ⟨"Current Affairs", "CA", "2 May 2026", "Other item", ["q"], []⟩]⟩
      [⟨"SPORTS", "Winners", "1 May 2026", "India wins", ["p1", "p2"], ["HQ: X"]⟩,
       ⟨"Current Affairs", "CA", "2 May 2026", "Other item", ["q"], []⟩]
      "sid" rfl rfl (by decide) rfl
  exact h.2.1

/-- Claim C8: a request without an established authorization session is
answered with the unauthorized error and no append call is ever attempted
(the recorded call list is empty). -/
theorem claim8_unauthorized_before_network (req : SheetsUpdateRequest)
    (h : req.hasTokens = false) :
    sheetsUpdate req = ⟨SheetsUpdateResponse.unauthorized, []⟩ := by
  simp [sheetsUpdate, h]

/-- Witness for C8 at a concrete input. -/
theorem claim8_unauthorized_before_network_witness :
    sheetsUpdate ⟨false, some "sid", some []⟩ =
      ⟨SheetsUpdateResponse.unauthorized, []⟩ :=
  claim8_unauthorized_before_network ⟨false, some "sid", some []⟩ rfl

/-- Claim C9: the document and tabular exports are pure functions of the
NewsItem list and the clock: two invocations on the same list produce
byte-identical output except at the embedded current-date stamps (two
occurrences of the locale date in the document, the ISO date in each file
name), and the worksheet rows are identical regardless of the date. -/
theorem claim9_exports_pure (items : List NewsItem) (d1 d2 iso1 iso2 : String) :
    (∃ a b c : String,
      (handleDownloadHtml d1 iso1 items).content = a ++ d1 ++ b ++ d1 ++ c ∧
      (handleDownloadHtml d2 iso2 items).content = a ++ d2 ++ b ++ d2 ++ c) ∧
    (∃ p q : String,
      (handleDownloadHtml d1 iso1 items).fileName = p ++ iso1 ++ q ∧
      (handleDownloadHtml d2 iso2 items).fileName = p ++ iso2 ++ q) ∧
    (handleDownloadExcel iso1 items).2 = (handleDownloadExcel iso2 items).2 ∧
    (∃ p q : String,
      (handleDownloadExcel iso1 items).1 = p ++ iso1 ++ q ∧
      (handleDownloadExcel iso2 items).1 = p ++ iso2 ++ q) :=
  ⟨⟨htmlPartA, htmlPartB, htmlTail items, rfl, rfl⟩,
   ⟨"Daily_Digest_", ".html", rfl, rfl⟩,
   rfl,
   ⟨"Daily_Digest_", ".xlsx", rfl, rfl⟩⟩

/-- `splitComma` always returns at least one segment. -/
theorem splitComma_ne_nil (s : List Char) : splitComma s ≠ [] := by
  cases s with
  | nil => simp [splitComma]
  | cons c cs =>
    simp only [splitComma]
    cases splitComma cs with
    | nil => simp
    | cons seg rest => by_cases hc : c = ',' <;> simp [hc]

/-- The first segment of `splitComma` is the longest comma-free prefix. -/
theorem splitComma_head (s : List Char) :
    (splitComma s).head? = some (s.takeWhile (fun c => ¬ c = ',')) := by
  induction s with
  | nil => simp [splitComma]
  | cons c cs ih =>
    simp only [splitComma]
    cases hsc : splitComma cs with
    | nil => exact absurd hsc (splitComma_ne_nil cs)
    | cons seg rest =>
      rw [hsc] at ih
      have hseg : seg = cs.takeWhile (fun x => ¬ x = ',') := by simpa using ih
      by_cases hc : c = ','
      · simp [hc, List.takeWhile]
      · simp [hc, List.takeWhile, hseg]

/-- A comma-free string is not split. -/
theorem splitComma_no_comma (s : List Char) (hs : ¬ ',' ∈ s) : splitComma s = [s] := by
  induction s with
  | nil => rfl
  | cons c cs ih =>
    have hc : ¬ c = ',' := fun h => hs (by simp [h])
    have hcs : ¬ ',' ∈ cs := fun h => hs (List.mem_cons_of_mem c h)
    show (match splitComma cs with
      | [] => [[]]
      | seg :: rest => if c = ',' then [] :: seg :: rest else (c :: seg) :: rest) = [c :: cs]
    rw [ih hcs]
    simp [hc]

/-- Splitting at the first comma: the comma-free prefix becomes the first
segment. -/
theorem splitComma_append (a b : List Char) (ha : ¬ ',' ∈ a) :
    splitComma (a ++ ',' :: b) = a :: splitComma b := by
  induction a with
  | nil =>
    simp only [List.nil_append, splitComma]
    cases hsc : splitComma b with
    | nil => exact absurd hsc (splitComma_ne_nil b)
    | cons seg rest => simp
  | cons c a' ih =>
    have hc : ¬ c = ',' := fun h => ha (by simp [h])
    have ha' : ¬ ',' ∈ a' := fun h => ha (List.mem_cons_of_mem c h)
    show (match splitComma (a' ++ ',' :: b) with
      | [] => [[]]
      | seg :: rest => if c = ',' then [] :: seg :: rest else (c :: seg) :: rest) =
      (c :: a') :: splitComma b
    rw [ih ha']
    simp [hc]

/-- Counterexample to C10 as stated: for `"a,b,c"` the code sends the
segment between the first and second comma (`"b"`), not the whole substring
after the first comma (`"b,c"`). -/
theorem claim10_counterexample :
    ',' ∈ "a,b,c".toList ∧
    extractData ("a,b,c".toList) = "b".toList ∧
    afterFirstComma ("a,b,c".toList) = "b,c".toList ∧
    extractData ("a,b,c".toList) ≠ afterFirstComma ("a,b,c".toList) := by
  decide

/-- Claim C10 as amended: for a data string without a comma the whole string
is sent unchanged; for a data string with a comma, the payload is the
segment between the first comma and the following comma (or end of string)
when that segment is non-empty, and the whole string unchanged when that
segment is empty (the JS `||` fallback). -/
theorem claim10_payload_selection :
    (∀ s : List Char, ¬ ',' ∈ s → extractData s = s) ∧
    (∀ a b : List Char, ¬ ',' ∈ a →
      extractData (a ++ ',' :: b) =
        if b.takeWhile (fun c => ¬ c = ',') = [] then a ++ ',' :: b
        else b.takeWhile (fun c => ¬ c = ',')) := by
  constructor
  · intro s hs
    simp [extractData, splitComma_no_comma s hs]
  · intro a b ha
    have hsplit := splitComma_append a b ha
    have hhead := splitComma_head b
    cases hsc : splitComma b with
    | nil => exact absurd hsc (splitComma_ne_nil b)
    | cons seg rest =>
      rw [hsc] at hsplit hhead
      have hseg : seg = b.takeWhile (fun c => ¬ c = ',') := by simpa using hhead
      simp only [extractData, hsplit]
      simp [hseg]

/-- Witness for the amended C10 at concrete inputs: a comma-free string
passes through; for `"x,y,z"` (written as `"x" ++ ',' :: "y,z"`) the payload
is `"y"`. -/
theorem claim10_payload_selection_witness :
    extractData ("nocomma".toList) = "nocomma".toList ∧
    extractData ("x".toList ++ ',' :: "y,z".toList) = "y".toList := by
  constructor
  · exact claim10_payload_selection.1 ("nocomma".toList) (by decide)
  · exact claim10_payload_selection.2 ("x".toList) ("y,z".toList) (by decide)
